import Mathlib

/-!
Verification development for the `topo_gen` topology generator.

The definitions below are a shallow embedding of the Python sources:
`core/types.py`, `topology/base.py`, `topology/grid.py`, `topology/torus.py`,
`topology/strip.py`, `topology/special.py`, `utils/direction.py` and
`links.py`.  Machine integers are modelled by `Nat`/`Int` (Python integers
are unbounded); fallible operations return `Option`/`Except`; Python dicts
keyed by `Direction` are modelled by a record with four optional slots.
-/

namespace TopoGen

/-- Grid coordinate: `Coordinate(row, col)` from `core/types.py`.
Validated coordinates have non-negative components, so `Nat` fields;
the `[0, 99]` construction bound is modelled separately by
`mkCoordinate` below. -/
structure Coord where
  row : Nat
  col : Nat
deriving DecidableEq, Repr

/-- The four-element `Direction` enum from `core/types.py`. -/
inductive Direction where
  | north
  | south
  | west
  | east
deriving DecidableEq, Repr

/-- Python iterates `for direction in Direction` in declaration order:
NORTH, SOUTH, WEST, EAST. -/
def Direction.all : List Direction :=
  [Direction.north, Direction.south, Direction.west, Direction.east]

/-- Unit vector of a direction (`Direction.vector` in `core/types.py`). -/
def Direction.vec : Direction → Int × Int
  | Direction.north => (-1, 0)
  | Direction.south => (1, 0)
  | Direction.west => (0, -1)
  | Direction.east => (0, 1)

/-- A `Dict[Direction, Coordinate]` neighbor map: one optional slot per
direction.  Membership and lookup match the Python dict; insertion order
is irrelevant to every claim proved here. -/
structure NeighborMap where
  north : Option Coord
  south : Option Coord
  west : Option Coord
  east : Option Coord
deriving DecidableEq, Repr

def NeighborMap.empty : NeighborMap := ⟨none, none, none, none⟩

def NeighborMap.get (m : NeighborMap) : Direction → Option Coord
  | Direction.north => m.north
  | Direction.south => m.south
  | Direction.west => m.west
  | Direction.east => m.east

def NeighborMap.set (m : NeighborMap) : Direction → Coord → NeighborMap
  | Direction.north, c => { m with north := some c }
  | Direction.south, c => { m with south := some c }
  | Direction.west, c => { m with west := some c }
  | Direction.east, c => { m with east := some c }

/-- `len` of the neighbor dict. -/
def NeighborMap.size (m : NeighborMap) : Nat :=
  (if m.north.isSome then 1 else 0) + (if m.south.isSome then 1 else 0) +
    (if m.west.isSome then 1 else 0) + (if m.east.isSome then 1 else 0)

/-- `get_neighbor_in_direction` from `topology/base.py`: step one unit,
return the coordinate when both components stay inside `[0, size)`. -/
def get_neighbor_in_direction (c : Coord) (d : Direction) (size : Nat) :
    Option Coord :=
  let nr : Int := (c.row : Int) + d.vec.1
  let nc : Int := (c.col : Int) + d.vec.2
  if 0 ≤ nr ∧ nr < (size : Int) ∧ 0 ≤ nc ∧ nc < (size : Int) then
    some ⟨nr.toNat, nc.toNat⟩
  else
    none

/-- `get_torus_neighbor_in_direction` from `topology/base.py`: step one
unit and wrap each axis modulo its extent. -/
def get_torus_neighbor_in_direction (c : Coord) (d : Direction)
    (rows cols : Nat) : Coord :=
  let nr : Int := (c.row : Int) + d.vec.1
  let nc : Int := (c.col : Int) + d.vec.2
  ⟨(nr % (rows : Int)).toNat, (nc % (cols : Int)).toNat⟩

/-- `NeighborMapper.build_neighbor_map` from `topology/base.py`: insert,
in Direction order, every direction whose neighbor function returns a
coordinate. -/
def build_neighbor_map (c : Coord) (size : Nat)
    (f : Coord → Direction → Nat → Option Coord) : NeighborMap :=
  Direction.all.foldl
    (fun m d =>
      match f c d size with
      | some nc => m.set d nc
      | none => m)
    NeighborMap.empty

/-- `GridTopology.get_neighbors` (`topology/grid.py`). -/
def grid_get_neighbors (size : Nat) (c : Coord) : NeighborMap :=
  build_neighbor_map c size get_neighbor_in_direction

/-- `TorusTopology.get_neighbors` (`topology/torus.py`), square case
`cols = rows`: every direction wraps. -/
def torus_get_neighbors (size : Nat) (c : Coord) : NeighborMap :=
  Direction.all.foldl
    (fun m d => m.set d (get_torus_neighbor_in_direction c d size size))
    NeighborMap.empty

/-- `_get_strip_neighbor` (`topology/strip.py`): the row axis wraps, the
column axis is open. -/
def strip_neighbor (c : Coord) (d : Direction) (size : Nat) : Option Coord :=
  match d with
  | Direction.north => some (get_torus_neighbor_in_direction c d size size)
  | Direction.south => some (get_torus_neighbor_in_direction c d size size)
  | Direction.west => get_neighbor_in_direction c d size
  | Direction.east => get_neighbor_in_direction c d size

/-- `StripTopology.get_neighbors` (`topology/strip.py`). -/
def strip_get_neighbors (size : Nat) (c : Coord) : NeighborMap :=
  build_neighbor_map c size strip_neighbor

/-- `TopologyType` enum from `core/types.py`. -/
inductive TopologyType where
  | grid
  | torus
  | strip
  | special
deriving DecidableEq, Repr

/-- `SpecialTopologyConfig` (`core/models.py`), the fields used by the
neighbor computation. -/
structure SpecialConfig where
  source_node : Coord
  dest_node : Coord
  gateway_nodes : List Coord
  internal_bridge_edges : List (Coord × Coord)
  torus_bridge_edges : List (Coord × Coord)
  base_topology : TopologyType
  include_base_connections : Bool

/-- `get_subregion_for_coord` (`topology/special.py`): the quadrant split
is hardcoded at threshold 3 (designed for the 6x6 sample). -/
def get_subregion_for_coord (c : Coord) : Nat :=
  (if c.row < 3 then 0 else 1) * 2 + (if c.col < 3 then 0 else 1)

/-- `is_cross_region_connection` (`topology/special.py`). -/
def is_cross_region_connection (c1 c2 : Coord) : Bool :=
  get_subregion_for_coord c1 != get_subregion_for_coord c2

/-- `get_filtered_grid_neighbors` (`topology/special.py`): the four
candidate grid neighbors (Python-int bound checks `row > 0`,
`row < size - 1`, ...), keeping only same-subregion ones. -/
def get_filtered_grid_neighbors (c : Coord) (size : Nat) : NeighborMap :=
  let cand : List (Direction × Coord) :=
    (if 0 < c.row then [(Direction.north, ⟨c.row - 1, c.col⟩)] else []) ++
    (if (c.row : Int) < (size : Int) - 1 then
      [(Direction.south, ⟨c.row + 1, c.col⟩)] else []) ++
    (if 0 < c.col then [(Direction.west, ⟨c.row, c.col - 1⟩)] else []) ++
    (if (c.col : Int) < (size : Int) - 1 then
      [(Direction.east, ⟨c.row, c.col + 1⟩)] else [])
  cand.foldl
    (fun m dc =>
      if is_cross_region_connection c dc.2 then m else m.set dc.1 dc.2)
    NeighborMap.empty

/-- The inline scan in `SpecialTopology.get_neighbors`: first direction,
in NORTH, SOUTH, WEST, EAST order, not yet present in the map. -/
def first_free_direction (m : NeighborMap) : Option Direction :=
  Direction.all.find? (fun d => (m.get d).isNone)

/-- One bridge-edge pass of `SpecialTopology.get_neighbors`
(`topology/special.py` lines 36-63): when `coord` is an endpoint of the
edge, assign the opposite endpoint to the first free direction; when the
map is full the loop falls through and the edge is dropped. -/
def bridge_step (coord : Coord) (m : NeighborMap) (e : Coord × Coord) :
    NeighborMap :=
  if e.1 = coord then
    match first_free_direction m with
    | some d => m.set d e.2
    | none => m
  else if e.2 = coord then
    match first_free_direction m with
    | some d => m.set d e.1
    | none => m
  else
    m

/-- `SpecialTopology.get_neighbors` (`topology/special.py`): base map
(filtered grid, or torus when the base topology is TORUS), then the
internal bridge edges, then the torus bridge edges. -/
def special_get_neighbors (coord : Coord) (size : Nat)
    (cfg : SpecialConfig) : NeighborMap :=
  let base :=
    if cfg.include_base_connections then
      if cfg.base_topology = TopologyType.torus then
        torus_get_neighbors size coord
      else
        get_filtered_grid_neighbors coord size
    else
      NeighborMap.empty
  let afterInternal := cfg.internal_bridge_edges.foldl (bridge_step coord) base
  cfg.torus_bridge_edges.foldl (bridge_step coord) afterInternal

/-! ## Link address generation (`links.py`) -/

/-- Linear node id `row * col_count + col` used by `generate_link_ipv6`. -/
def node_id (col_count : Nat) (c : Coord) : Nat :=
  c.row * col_count + c.col

/-- Zero-padded two-digit decimal rendering, `f"{n:02d}"` for `n ≤ 99`. -/
def pad2 (n : Nat) : String :=
  if n < 10 then "0" ++ toString n else toString n

/-- `f"router_{row:02d}_{col:02d}"`. -/
def router_name (c : Coord) : String :=
  "router_" ++ pad2 c.row ++ "_" ++ pad2 c.col

/-- The 128-bit value of the `/126` network produced from a subnet id.
`generate_link_ipv6` splits the subnet id into `segment1 =
(subnet_id >> 16) & 0xFFFF` and `segment2 = subnet_id & 0xFFFF` (all
higher bits are discarded) and renders either
`2001:db8:2000:{segment1:x}:{segment2:04x}::/126` (when `segment1 > 0`)
or `2001:db8:2000:{segment2:04x}::/126` (when `segment1 = 0`); two
`ipaddress.IPv6Network` values (and their canonical strings) are equal
exactly when their 128-bit network values and prefix lengths are equal,
and the prefix length is always 126 here, so we model the network by its
128-bit value. Group `2001` sits at bits 112..127, `0db8` at 96..111,
`2000` at 80..95, the fourth group at 64..79, the fifth at 48..63. -/
def link_network_val (subnet_id : Nat) : Nat :=
  let segment1 := subnet_id / 2 ^ 16 % 2 ^ 16
  let segment2 := subnet_id % 2 ^ 16
  if 0 < segment1 then
    0x2001 * 2 ^ 112 + 0xdb8 * 2 ^ 96 + 0x2000 * 2 ^ 80 +
      segment1 * 2 ^ 64 + segment2 * 2 ^ 48
  else
    0x2001 * 2 ^ 112 + 0xdb8 * 2 ^ 96 + 0x2000 * 2 ^ 80 + segment2 * 2 ^ 64

/-- `LinkAddress` from `links.py`.  `network` is the 128-bit value of the
`/126` network; each interface address is a pair of its 128-bit value and
its advertised prefix length. -/
structure LinkAddr where
  network : Nat
  router1_addr : Nat × Nat
  router2_addr : Nat × Nat
  router1_name : String
  router2_name : String
deriving DecidableEq, Repr

/-- `generate_link_ipv6` (`links.py`): canonicalize the endpoints by
linear id (smaller id first), pair the two ids with the Cantor pairing
function, reduce modulo `2^(126-48)`, and hand out `network + 1` and
`network + 3`, each with a `/127` interface prefix. -/
def generate_link_ipv6 (col_count : Nat) (coord1 coord2 : Coord) :
    LinkAddr :=
  let id1 := node_id col_count coord1
  let id2 := node_id col_count coord2
  let c1 := if id2 < id1 then coord2 else coord1
  let c2 := if id2 < id1 then coord1 else coord2
  let node1_id := if id2 < id1 then id2 else id1
  let node2_id := if id2 < id1 then id1 else id2
  let link_id :=
    if node1_id < node2_id then
      (node1_id + node2_id) * (node1_id + node2_id + 1) / 2 + node2_id
    else
      (node1_id + node2_id) * (node1_id + node2_id + 1) / 2 + node1_id
  let subnet_id := link_id % 2 ^ (126 - 48)
  let network_addr := link_network_val subnet_id
  { network := network_addr
    router1_addr := (network_addr + 1, 127)
    router2_addr := (network_addr + 3, 127)
    router1_name := router_name c1
    router2_name := router_name c2 }

/-! ## Direction resolution (`utils/direction.py`) -/

/-- The standard-adjacency block of `calculate_direction`
(`utils/direction.py`): the first four early returns. -/
def adjacent_direction (row_diff col_diff : Int) : Option Direction :=
  if row_diff = -1 ∧ col_diff = 0 then some Direction.north
  else if row_diff = 1 ∧ col_diff = 0 then some Direction.south
  else if row_diff = 0 ∧ col_diff = -1 then some Direction.west
  else if row_diff = 0 ∧ col_diff = 1 then some Direction.east
  else none

/-- The torus-wraparound block of `calculate_direction`
(`utils/direction.py`): the four wraparound early returns, with
`wrap_distance = size - 1`. -/
def wraparound_direction (row_diff col_diff wrap_distance : Int) :
    Option Direction :=
  if row_diff = wrap_distance ∧ col_diff = 0 then some Direction.north
  else if row_diff = -wrap_distance ∧ col_diff = 0 then some Direction.south
  else if row_diff = 0 ∧ col_diff = wrap_distance then some Direction.west
  else if row_diff = 0 ∧ col_diff = -wrap_distance then some Direction.east
  else none

/-- The final block of `calculate_direction` (`utils/direction.py`):
the dominant-axis rule when some absolute delta exceeds 1, else the
fall-through `return None`. -/
def dominant_axis_direction (row_diff col_diff : Int) : Option Direction :=
  if 1 < row_diff.natAbs ∨ 1 < col_diff.natAbs then
    if col_diff.natAbs ≤ row_diff.natAbs then
      if row_diff < 0 then some Direction.north else some Direction.south
    else
      if col_diff < 0 then some Direction.west else some Direction.east
  else none

/-- `calculate_direction(from_coord, to_coord, size)` from
`utils/direction.py`: the three early-return blocks in source order —
standard adjacency, then exact torus wraparound (`delta = ±(size-1)` on
one axis, zero on the other), then the dominant-axis rule. -/
def calculate_direction (from_coord to_coord : Coord) (size : Nat) :
    Option Direction :=
  match adjacent_direction ((to_coord.row : Int) - (from_coord.row : Int))
      ((to_coord.col : Int) - (from_coord.col : Int)) with
  | some d => some d
  | none =>
    match wraparound_direction
        ((to_coord.row : Int) - (from_coord.row : Int))
        ((to_coord.col : Int) - (from_coord.col : Int)) ((size : Int) - 1) with
    | some d => some d
    | none =>
      dominant_axis_direction
        ((to_coord.row : Int) - (from_coord.row : Int))
        ((to_coord.col : Int) - (from_coord.col : Int))

/-! ## Direction-to-interface mapping (`core/types.py`) -/

/-- The default `InterfaceMapping.direction_to_interface` table. -/
def direction_to_interface : Direction → String
  | Direction.north => "eth1"
  | Direction.south => "eth2"
  | Direction.west => "eth3"
  | Direction.east => "eth4"

/-- `get_interface_for_direction` (`core/types.py`). -/
def get_interface_for_direction (d : Direction) : String :=
  direction_to_interface d

/-- `get_direction_for_interface` (`core/types.py`): scan the mapping in
insertion order and return the first direction bound to the interface
name, `None` when there is none. -/
def get_direction_for_interface (interface : String) : Option Direction :=
  Direction.all.find? (fun d => direction_to_interface d == interface)

/-! ## Coordinate construction and addition (`core/types.py`) -/

/-- Validated construction of `Coordinate(row, col)`: pydantic enforces
`0 ≤ row ≤ 99` and `0 ≤ col ≤ 99` and raises otherwise. -/
def mkCoordinate (row col : Int) : Option (Int × Int) :=
  if 0 ≤ row ∧ row ≤ 99 ∧ 0 ≤ col ∧ col ≤ 99 then some (row, col) else none

/-- `Coordinate.__add__` (`core/types.py`): componentwise sum; an
explicit `ValueError` when a component of the sum is negative, otherwise
the result goes through validated construction (which raises when a
component exceeds 99).  Both failure modes are `none`. -/
def coordinate_add (a other : Int × Int) : Option (Int × Int) :=
  let new_row := a.1 + other.1
  let new_col := a.2 + other.2
  if new_row < 0 ∨ new_col < 0 then none else mkCoordinate new_row new_col

/-! ## The all-links generation pass (`links.py`) -/

/-- Row-major traversal `for row in range(rows): for col in range(cols)`. -/
def row_major (rows cols : Nat) : List Coord :=
  (List.range rows).flatMap (fun r => (List.range cols).map (fun c => ⟨r, c⟩))

/-- The TORUS branch of `generate_all_links`: every node appends its east
link and its south link (wrapping), with no duplicate-pair filtering. -/
def torus_links (n : Nat) : List LinkAddr :=
  (row_major n n).flatMap
    (fun c =>
      [generate_link_ipv6 n c ⟨c.row, (c.col + 1) % n⟩,
        generate_link_ipv6 n c ⟨(c.row + 1) % n, c.col⟩])

/-- `generate_all_links` (`links.py`) for the standard (non-SPECIAL)
topology types.  The TORUS branch (when `rows > 1 and cols > 1`) builds
its links directly.  Every other branch first runs
`get_neighbors_func(config.topology_type, rows, cols)`, which forwards
FOUR positional arguments to `TopologyStrategy.get_neighbors_func`
(`topology/strategies.py`), a staticmethod with only THREE parameters
`(topology_type, size, special_config=None)` — so Python raises
`TypeError` before any link is produced.  The embedding returns that
failure as `Except.error`. -/
def generate_all_links (topology_type : TopologyType) (n : Nat) :
    Except String (List LinkAddr) :=
  if topology_type = TopologyType.torus ∧ 1 < n then
    Except.ok (torus_links n)
  else
    Except.error
      "TypeError: TopologyStrategy.get_neighbors_func takes from 2 to 3 positional arguments but 4 were given"

/-! ## General lemmas about neighbor maps -/

lemma NeighborMap.size_le_four (m : NeighborMap) : m.size ≤ 4 := by
  unfold NeighborMap.size
  split_ifs <;> omega

lemma NeighborMap.ext_fields (m1 m2 : NeighborMap) (h1 : m1.north = m2.north)
    (h2 : m1.south = m2.south) (h3 : m1.west = m2.west)
    (h4 : m1.east = m2.east) : m1 = m2 := by
  cases m1
  cases m2
  simp_all

lemma build_neighbor_map_get (c : Coord) (size : Nat)
    (f : Coord → Direction → Nat → Option Coord) (d : Direction) :
    (build_neighbor_map c size f).get d = f c d size := by
  cases d <;>
    cases hn : f c Direction.north size <;>
    cases hs : f c Direction.south size <;>
    cases hw : f c Direction.west size <;>
    cases he : f c Direction.east size <;>
      simp [build_neighbor_map, Direction.all, NeighborMap.get,
        NeighborMap.set, NeighborMap.empty, hn, hs, hw, he]

/-! ## Theorems -/

/-- Claim C6: for every topology type (GRID, TORUS, STRIP, and SPECIAL
with any special configuration) and every coordinate, the neighbor map
returned by the neighbors operation has at most 4 entries. -/
theorem neighbor_maps_have_at_most_four_entries :
    ∀ (size : Nat) (c : Coord) (cfg : SpecialConfig),
      (grid_get_neighbors size c).size ≤ 4 ∧
      (torus_get_neighbors size c).size ≤ 4 ∧
      (strip_get_neighbors size c).size ≤ 4 ∧
      (special_get_neighbors c size cfg).size ≤ 4 :=
  fun _ _ _ =>
    ⟨NeighborMap.size_le_four _, NeighborMap.size_le_four _,
      NeighborMap.size_le_four _, NeighborMap.size_le_four _⟩

/-- Claim C9: the direction-to-interface mapping is total and one-to-one
over the four directions (the four interface names are pairwise
distinct), and the reverse lookup is its exact inverse. -/
theorem interface_mapping_bijective :
    (Direction.all.map get_interface_for_direction).Nodup ∧
    ∀ d : Direction,
      get_direction_for_interface (get_interface_for_direction d) = some d := by
  constructor
  · decide
  · intro d
    cases d <;> rfl

/-- Claim C10: every coordinate that passes validated construction has
both components in `[0, 99]`, and coordinate addition returns the
componentwise sum exactly when both components of the sum lie in
`[0, 99]`, failing otherwise — including when a component of the sum
exceeds 99, not only when one is negative. -/
theorem coordinate_bounds_and_add :
    (∀ (row col : Int) (p : Int × Int), mkCoordinate row col = some p →
      0 ≤ p.1 ∧ p.1 ≤ 99 ∧ 0 ≤ p.2 ∧ p.2 ≤ 99) ∧
    (∀ a other : Int × Int,
      coordinate_add a other =
        if 0 ≤ a.1 + other.1 ∧ a.1 + other.1 ≤ 99 ∧
            0 ≤ a.2 + other.2 ∧ a.2 + other.2 ≤ 99 then
          some (a.1 + other.1, a.2 + other.2)
        else none) := by
  constructor
  · intro row col p h
    unfold mkCoordinate at h
    split_ifs at h with hcond
    · cases h
      exact ⟨hcond.1, hcond.2.1, hcond.2.2.1, hcond.2.2.2⟩
  · intro a other
    simp only [coordinate_add, mkCoordinate]
    split_ifs <;> first | rfl | omega

/-- Witness for C10 at a concrete input. -/
theorem coordinate_bounds_and_add_witness :
    0 ≤ (5 : Int) ∧ (5 : Int) ≤ 99 ∧ 0 ≤ (7 : Int) ∧ (7 : Int) ≤ 99 :=
  coordinate_bounds_and_add.1 5 7 (5, 7) (by decide)

/-- `Coordinate.manhattan_distance_to` (`core/types.py`). -/
def manhattan_distance_to (a b : Coord) : Nat :=
  ((a.row : Int) - (b.row : Int)).natAbs + ((a.col : Int) - (b.col : Int)).natAbs

lemma adjacent_direction_eq_none (rd cd : Int)
    (h : rd.natAbs + cd.natAbs ≠ 1) : adjacent_direction rd cd = none := by
  unfold adjacent_direction
  split_ifs <;> first | rfl | omega

lemma wraparound_direction_eq_none (rd cd w : Int)
    (h1 : ¬(rd = w ∧ cd = 0)) (h2 : ¬(rd = -w ∧ cd = 0))
    (h3 : ¬(rd = 0 ∧ cd = w)) (h4 : ¬(rd = 0 ∧ cd = -w)) :
    wraparound_direction rd cd w = none := by
  unfold wraparound_direction
  split_ifs <;> first | rfl | omega

/-- Claim C7: direction resolution maps a Manhattan-distance-1 pair to
the matching cardinal direction (any size), and maps an exact wraparound
pair (delta `n-1` on one axis, zero on the other) to the direction of
the shorter wrap path.  The wrap clauses carry `3 ≤ n`, which is exactly
the condition for the one-step wrap path to be strictly shorter than the
`n-1`-step direct path; at `n = 2` a wraparound pair IS a
Manhattan-distance-1 pair and the adjacency clauses apply.  The size-6
examples from the spec are included. -/
theorem direction_resolution_adjacent_and_wraparound :
    ∀ (n : Nat) (a b : Coord), 2 ≤ n →
      ((a.row = b.row + 1 ∧ a.col = b.col →
          calculate_direction a b n = some Direction.north) ∧
        (b.row = a.row + 1 ∧ a.col = b.col →
          calculate_direction a b n = some Direction.south) ∧
        (a.col = b.col + 1 ∧ a.row = b.row →
          calculate_direction a b n = some Direction.west) ∧
        (b.col = a.col + 1 ∧ a.row = b.row →
          calculate_direction a b n = some Direction.east)) ∧
      (3 ≤ n →
        ((b.row = a.row + (n - 1) ∧ a.col = b.col →
            calculate_direction a b n = some Direction.north) ∧
          (a.row = b.row + (n - 1) ∧ a.col = b.col →
            calculate_direction a b n = some Direction.south) ∧
          (b.col = a.col + (n - 1) ∧ a.row = b.row →
            calculate_direction a b n = some Direction.west) ∧
          (a.col = b.col + (n - 1) ∧ a.row = b.row →
            calculate_direction a b n = some Direction.east))) ∧
      (calculate_direction ⟨0, 0⟩ ⟨0, 5⟩ 6 = some Direction.west ∧
        calculate_direction ⟨0, 5⟩ ⟨0, 0⟩ 6 = some Direction.east) := by
  intro n a b h2
  have adj :
      ∀ d : Direction,
        adjacent_direction ((b.row : Int) - (a.row : Int))
            ((b.col : Int) - (a.col : Int)) = some d →
          calculate_direction a b n = some d := by
    intro d hd
    simp [calculate_direction, hd]
  have wrp :
      ∀ d : Direction,
        adjacent_direction ((b.row : Int) - (a.row : Int))
            ((b.col : Int) - (a.col : Int)) = none →
        wraparound_direction ((b.row : Int) - (a.row : Int))
            ((b.col : Int) - (a.col : Int)) ((n : Int) - 1) = some d →
          calculate_direction a b n = some d := by
    intro d hnone hd
    simp [calculate_direction, hnone, hd]
  refine ⟨⟨?_, ?_, ?_, ?_⟩, fun h3 => ⟨?_, ?_, ?_, ?_⟩, by decide, by decide⟩
  · rintro ⟨hr, hc⟩
    exact adj Direction.north
      (by unfold adjacent_direction; split_ifs <;> first | rfl | omega)
  · rintro ⟨hr, hc⟩
    exact adj Direction.south
      (by unfold adjacent_direction; split_ifs <;> first | rfl | omega)
  · rintro ⟨hr, hc⟩
    exact adj Direction.west
      (by unfold adjacent_direction; split_ifs <;> first | rfl | omega)
  · rintro ⟨hr, hc⟩
    exact adj Direction.east
      (by unfold adjacent_direction; split_ifs <;> first | rfl | omega)
  · rintro ⟨hr, hc⟩
    exact wrp Direction.north (adjacent_direction_eq_none _ _ (by omega))
      (by unfold wraparound_direction; split_ifs <;> first | rfl | omega)
  · rintro ⟨hr, hc⟩
    exact wrp Direction.south (adjacent_direction_eq_none _ _ (by omega))
      (by unfold wraparound_direction; split_ifs <;> first | rfl | omega)
  · rintro ⟨hr, hc⟩
    exact wrp Direction.west (adjacent_direction_eq_none _ _ (by omega))
      (by unfold wraparound_direction; split_ifs <;> first | rfl | omega)
  · rintro ⟨hr, hc⟩
    exact wrp Direction.east (adjacent_direction_eq_none _ _ (by omega))
      (by unfold wraparound_direction; split_ifs <;> first | rfl | omega)

/-- Witness for C7 at concrete inputs: size 6, adjacency south and
wraparound north. -/
theorem direction_resolution_adjacent_and_wraparound_witness :
    calculate_direction ⟨1, 2⟩ ⟨2, 2⟩ 6 = some Direction.south ∧
    calculate_direction ⟨0, 4⟩ ⟨5, 4⟩ 6 = some Direction.north := by
  have h := direction_resolution_adjacent_and_wraparound 6 ⟨1, 2⟩ ⟨2, 2⟩
    (by decide)
  have h2 := direction_resolution_adjacent_and_wraparound 6 ⟨0, 4⟩ ⟨5, 4⟩
    (by decide)
  exact ⟨h.1.2.1 (by decide), (h2.2.1 (by decide)).1 (by decide)⟩

/-- Claim C8 counterexample: from `(0,0)` to `(1,1)` at size 6 the pair
is distinct (Manhattan distance 2, so not standard adjacency) and not an
exact wraparound, yet `calculate_direction` returns no direction at all
instead of a dominant-axis direction. -/
theorem direction_resolution_unit_diagonal_returns_none :
    manhattan_distance_to ⟨0, 0⟩ ⟨1, 1⟩ = 2 ∧
    calculate_direction ⟨0, 0⟩ ⟨1, 1⟩ 6 = none := by decide

/-- Claim C8 (amended): for a pair that is neither standard adjacency
nor exact wraparound AND has an absolute delta above 1 on some axis, the
resolver picks the dominant axis (row wins ties) and the sign of that
delta picks the direction.  (Unit-diagonal pairs — both deltas of
absolute value at most 1, not adjacent, not wraparound — return no
direction; see the counterexample.) -/
theorem direction_resolution_dominant_axis (n : Nat) (a b : Coord)
    (hn : 2 ≤ n)
    (hadj : manhattan_distance_to b a ≠ 1)
    (hw1 : ¬(((b.row : Int) - (a.row : Int)).natAbs = n - 1 ∧ b.col = a.col))
    (hw2 : ¬(b.row = a.row ∧ ((b.col : Int) - (a.col : Int)).natAbs = n - 1))
    (hbig : 1 < ((b.row : Int) - (a.row : Int)).natAbs ∨
      1 < ((b.col : Int) - (a.col : Int)).natAbs) :
    calculate_direction a b n =
      some
        (if ((b.col : Int) - (a.col : Int)).natAbs ≤
            ((b.row : Int) - (a.row : Int)).natAbs then
          if (b.row : Int) - (a.row : Int) < 0 then Direction.north
          else Direction.south
        else
          if (b.col : Int) - (a.col : Int) < 0 then Direction.west
          else Direction.east) := by
  unfold manhattan_distance_to at hadj
  have ha : adjacent_direction ((b.row : Int) - (a.row : Int))
      ((b.col : Int) - (a.col : Int)) = none :=
    adjacent_direction_eq_none _ _ (by omega)
  have hw : wraparound_direction ((b.row : Int) - (a.row : Int))
      ((b.col : Int) - (a.col : Int)) ((n : Int) - 1) = none :=
    wraparound_direction_eq_none _ _ _ (by omega) (by omega) (by omega)
      (by omega)
  simp only [calculate_direction, ha, hw]
  unfold dominant_axis_direction
  split_ifs <;> first | rfl | omega

/-- Witness for the amended C8 at a concrete input: from `(0,0)` to
`(3,1)` at size 6 the row axis dominates and the delta is positive. -/
theorem direction_resolution_dominant_axis_witness :
    calculate_direction ⟨0, 0⟩ ⟨3, 1⟩ 6 = some Direction.south := by
  have h := direction_resolution_dominant_axis 6 ⟨0, 0⟩ ⟨3, 1⟩ (by decide)
    (by decide) (by decide) (by decide) (by decide)
  simpa using h

/-! ## Bridge-edge direction assignment (claim C3) -/

/-- Position of a direction in the fixed scan order NORTH, SOUTH, WEST,
EAST. -/
def scan_index : Direction → Nat
  | Direction.north => 0
  | Direction.south => 1
  | Direction.west => 2
  | Direction.east => 3

lemma Direction.forall_iff (P : Direction → Prop) :
    (∀ d, P d) ↔
      P Direction.north ∧ P Direction.south ∧ P Direction.west ∧
        P Direction.east :=
  ⟨fun h => ⟨h _, h _, h _, h _⟩, fun h d => by
    rcases h with ⟨h1, h2, h3, h4⟩
    cases d <;> assumption⟩

lemma NeighborMap.get_set (m : NeighborMap) (d d2 : Direction) (c : Coord) :
    (m.set d c).get d2 = if d2 = d then some c else m.get d2 := by
  cases d <;> cases d2 <;>
    simp [NeighborMap.set, NeighborMap.get]

lemma first_free_direction_some_iff (m : NeighborMap) (d : Direction) :
    first_free_direction m = some d ↔
      m.get d = none ∧
        ∀ d2, scan_index d2 < scan_index d → (m.get d2).isSome := by
  cases m with
  | mk mn ms mw me =>
    cases d <;> cases mn <;> cases ms <;> cases mw <;> cases me <;>
      simp [first_free_direction, Direction.all, NeighborMap.get,
        scan_index, List.find?, Direction.forall_iff]

lemma first_free_direction_none_iff (m : NeighborMap) :
    first_free_direction m = none ↔ ∀ d2, (m.get d2).isSome := by
  cases m with
  | mk mn ms mw me =>
    cases mn <;> cases ms <;> cases mw <;> cases me <;>
      simp [first_free_direction, Direction.all, NeighborMap.get,
        List.find?, Direction.forall_iff]

/-- Claim C3: in SPECIAL-topology neighbor computation every bridge edge
touching a coordinate is assigned to the first direction — in the fixed
scan order NORTH, SOUTH, WEST, EAST — not already occupied at that point
(internal bridge edges first, then torus bridge edges); when all four
directions are occupied the edge is silently dropped, no existing entry
is ever replaced and no error is raised (the computation is total). -/
theorem special_bridge_edge_assignment :
    ∀ (coord : Coord) (size : Nat) (cfg : SpecialConfig) (m : NeighborMap)
      (e : Coord × Coord) (d : Direction) (v : Coord),
      (special_get_neighbors coord size cfg =
        (cfg.internal_bridge_edges ++ cfg.torus_bridge_edges).foldl
          (bridge_step coord)
          (special_get_neighbors coord size
            { cfg with
              internal_bridge_edges := [], torus_bridge_edges := [] })) ∧
      (first_free_direction m = some d ↔
        m.get d = none ∧
          ∀ d2, scan_index d2 < scan_index d → (m.get d2).isSome) ∧
      (e.1 = coord → first_free_direction m = some d →
        bridge_step coord m e = m.set d e.2) ∧
      (e.1 ≠ coord → e.2 = coord → first_free_direction m = some d →
        bridge_step coord m e = m.set d e.1) ∧
      ((∀ d2, (m.get d2).isSome) → bridge_step coord m e = m) ∧
      (m.get d = some v → (bridge_step coord m e).get d = some v) := by
  intro coord size cfg m e d v
  refine ⟨?_, first_free_direction_some_iff m d, ?_, ?_, ?_, ?_⟩
  · simp [special_get_neighbors, List.foldl_append]
  · intro h1 hff
    simp [bridge_step, h1, hff]
  · intro h1 h2 hff
    simp [bridge_step, h1, h2, hff]
  · intro hfull
    have hff : first_free_direction m = none :=
      (first_free_direction_none_iff m).mpr hfull
    unfold bridge_step
    split_ifs <;> simp [hff]
  · intro hv
    unfold bridge_step
    have hset : ∀ d2 c2, m.get d2 = none → (m.set d2 c2).get d = some v := by
      intro d2 c2 hnone
      rw [NeighborMap.get_set]
      split_ifs with hdd
      · rw [hdd] at hv
        rw [hv] at hnone
        cases hnone
      · exact hv
    split_ifs <;>
      first
      | exact hv
      | (cases hff : first_free_direction m with
         | none => simpa [hff] using hv
         | some d2 =>
           have hnone := ((first_free_direction_some_iff m d2).mp hff).1
           simpa [hff] using hset d2 _ hnone)

/-- Witness for C3 at a concrete input: with NORTH already occupied, the
bridge edge from `(0,0)` to `(2,2)` lands on SOUTH, and an already-full
map drops the edge unchanged. -/
theorem special_bridge_edge_assignment_witness :
    bridge_step ⟨0, 0⟩ (NeighborMap.empty.set Direction.north ⟨5, 5⟩)
        (⟨0, 0⟩, ⟨2, 2⟩) =
      (NeighborMap.empty.set Direction.north ⟨5, 5⟩).set Direction.south
        ⟨2, 2⟩ ∧
    bridge_step ⟨0, 0⟩ ⟨some ⟨0, 1⟩, some ⟨1, 0⟩, some ⟨2, 2⟩, some ⟨3, 3⟩⟩
        (⟨0, 0⟩, ⟨2, 2⟩) =
      ⟨some ⟨0, 1⟩, some ⟨1, 0⟩, some ⟨2, 2⟩, some ⟨3, 3⟩⟩ := by
  constructor
  · exact (special_bridge_edge_assignment ⟨0, 0⟩ 6
      ⟨⟨0, 0⟩, ⟨0, 0⟩, [], [], [], TopologyType.grid, false⟩
      (NeighborMap.empty.set Direction.north ⟨5, 5⟩) (⟨0, 0⟩, ⟨2, 2⟩)
      Direction.south ⟨0, 0⟩).2.2.1 rfl (by decide)
  · exact (special_bridge_edge_assignment ⟨0, 0⟩ 6
      ⟨⟨0, 0⟩, ⟨0, 0⟩, [], [], [], TopologyType.grid, false⟩
      ⟨some ⟨0, 1⟩, some ⟨1, 0⟩, some ⟨2, 2⟩, some ⟨3, 3⟩⟩
      (⟨0, 0⟩, ⟨2, 2⟩) Direction.south ⟨0, 0⟩).2.2.2.2.1
      (fun d2 => by cases d2 <;> rfl)

/-! ## Quadrant filtering (claim C4) -/

/-- Keep an optional neighbor only when it lies in the same subregion as
the center coordinate. -/
def keep_same_region (c : Coord) : Option Coord → Option Coord
  | some v =>
    if get_subregion_for_coord v = get_subregion_for_coord c then some v
    else none
  | none => none

/-- Restriction of a neighbor map to the center coordinate's subregion. -/
def nm_filter_region (c : Coord) (m : NeighborMap) : NeighborMap :=
  ⟨keep_same_region c m.north, keep_same_region c m.south,
    keep_same_region c m.west, keep_same_region c m.east⟩

/-- The quadrant rule exactly as the claim words it: `half` is half the
grid size.  Modelled from the spec (the claim reads
`region = 2*(row < half ? 0 : 1) + (col < half ? 0 : 1)` with `half`
half the grid size); the source function `get_subregion_for_coord`
instead hardcodes the threshold 3. -/
def claim_region_half_size (size : Nat) (c : Coord) : Nat :=
  2 * (if c.row < size / 2 then 0 else 1) + (if c.col < size / 2 then 0 else 1)

lemma grid_get_neighbors_get (size : Nat) (c : Coord) (d : Direction) :
    (grid_get_neighbors size c).get d = get_neighbor_in_direction c d size :=
  build_neighbor_map_get c size get_neighbor_in_direction d

lemma get_neighbor_in_direction_north (c : Coord) (size : Nat)
    (hr : c.row < size) (hc : c.col < size) :
    get_neighbor_in_direction c Direction.north size =
      if 0 < c.row then some ⟨c.row - 1, c.col⟩ else none := by
  unfold get_neighbor_in_direction Direction.vec
  dsimp only
  split_ifs <;>
    first
    | rfl
    | omega
    | (simp only [Option.some.injEq, Coord.mk.injEq]; omega)

lemma get_neighbor_in_direction_south (c : Coord) (size : Nat)
    (hr : c.row < size) (hc : c.col < size) :
    get_neighbor_in_direction c Direction.south size =
      if (c.row : Int) < (size : Int) - 1 then some ⟨c.row + 1, c.col⟩
      else none := by
  unfold get_neighbor_in_direction Direction.vec
  dsimp only
  split_ifs <;>
    first
    | rfl
    | omega
    | (simp only [Option.some.injEq, Coord.mk.injEq]; omega)

lemma get_neighbor_in_direction_west (c : Coord) (size : Nat)
    (hr : c.row < size) (hc : c.col < size) :
    get_neighbor_in_direction c Direction.west size =
      if 0 < c.col then some ⟨c.row, c.col - 1⟩ else none := by
  unfold get_neighbor_in_direction Direction.vec
  dsimp only
  split_ifs <;>
    first
    | rfl
    | omega
    | (simp only [Option.some.injEq, Coord.mk.injEq]; omega)

lemma get_neighbor_in_direction_east (c : Coord) (size : Nat)
    (hr : c.row < size) (hc : c.col < size) :
    get_neighbor_in_direction c Direction.east size =
      if (c.col : Int) < (size : Int) - 1 then some ⟨c.row, c.col + 1⟩
      else none := by
  unfold get_neighbor_in_direction Direction.vec
  dsimp only
  split_ifs <;>
    first
    | rfl
    | omega
    | (simp only [Option.some.injEq, Coord.mk.injEq]; omega)

lemma is_cross_region_connection_eq_false (c1 c2 : Coord) :
    is_cross_region_connection c1 c2 = false ↔
      get_subregion_for_coord c1 = get_subregion_for_coord c2 := by
  simp [is_cross_region_connection]

lemma keep_same_region_ite (c nb : Coord) :
    keep_same_region c (some nb) =
      if is_cross_region_connection c nb then none else some nb := by
  by_cases h : get_subregion_for_coord nb = get_subregion_for_coord c
  · rw [show is_cross_region_connection c nb = false from
      (is_cross_region_connection_eq_false c nb).mpr h.symm]
    simp [keep_same_region, h]
  · have h2 : is_cross_region_connection c nb = true := by
      simp [is_cross_region_connection, bne_iff_ne]
      exact fun h3 => h h3.symm
    rw [h2]
    simp [keep_same_region, h]

lemma get_filtered_grid_neighbors_fields (c : Coord) (size : Nat) :
    get_filtered_grid_neighbors c size =
      ⟨if 0 < c.row then
          (if is_cross_region_connection c ⟨c.row - 1, c.col⟩ then none
            else some ⟨c.row - 1, c.col⟩)
        else none,
        if (c.row : Int) < (size : Int) - 1 then
          (if is_cross_region_connection c ⟨c.row + 1, c.col⟩ then none
            else some ⟨c.row + 1, c.col⟩)
        else none,
        if 0 < c.col then
          (if is_cross_region_connection c ⟨c.row, c.col - 1⟩ then none
            else some ⟨c.row, c.col - 1⟩)
        else none,
        if (c.col : Int) < (size : Int) - 1 then
          (if is_cross_region_connection c ⟨c.row, c.col + 1⟩ then none
            else some ⟨c.row, c.col + 1⟩)
        else none⟩ := by
  unfold get_filtered_grid_neighbors
  split_ifs <;>
    simp_all [List.foldl, NeighborMap.set, NeighborMap.empty]

/-- Claim C4 counterexample: with grid size 4 the claim's quadrant rule
(`half = size / 2 = 2`) would drop the edge from `(0,1)` to `(0,2)` as
quadrant-crossing, but the code's filtered grid neighbor function keeps
it (its hardcoded threshold is 3): the claim is false at size 4. -/
theorem quadrant_filter_half_size_counterexample :
    (get_filtered_grid_neighbors ⟨0, 1⟩ 4).east = some ⟨0, 2⟩ ∧
    claim_region_half_size 4 ⟨0, 1⟩ ≠ claim_region_half_size 4 ⟨0, 2⟩ := by
  constructor
  · rfl
  · decide

/-- Claim C4 (amended): the subregion of a coordinate is
`2*(row < 3 ? 0 : 1) + (col < 3 ? 0 : 1)` — the threshold is the
constant 3 (the quadrant split hardcoded for the 6x6 sample), not half
the grid size — and for every grid size and in-bounds coordinate the
filtered grid neighbor function returns exactly the standard grid
neighbors whose subregion equals the coordinate's own (for size 6 the
two readings of `half` coincide). -/
theorem quadrant_filter_matches_grid_neighbors (size : Nat) (c : Coord)
    (hr : c.row < size) (hc : c.col < size) :
    get_subregion_for_coord c =
      2 * (if c.row < 3 then 0 else 1) + (if c.col < 3 then 0 else 1) ∧
    get_filtered_grid_neighbors c size =
      nm_filter_region c (grid_get_neighbors size c) := by
  constructor
  · unfold get_subregion_for_coord
    split_ifs <;> rfl
  · rw [get_filtered_grid_neighbors_fields]
    apply NeighborMap.ext_fields
    · show _ = keep_same_region c ((grid_get_neighbors size c).get
        Direction.north)
      rw [grid_get_neighbors_get, get_neighbor_in_direction_north c size hr hc]
      by_cases h0 : 0 < c.row
      · rw [if_pos h0, if_pos h0, keep_same_region_ite]
      · rw [if_neg h0, if_neg h0]
        rfl
    · show _ = keep_same_region c ((grid_get_neighbors size c).get
        Direction.south)
      rw [grid_get_neighbors_get, get_neighbor_in_direction_south c size hr hc]
      by_cases h0 : (c.row : Int) < (size : Int) - 1
      · rw [if_pos h0, if_pos h0, keep_same_region_ite]
      · rw [if_neg h0, if_neg h0]
        rfl
    · show _ = keep_same_region c ((grid_get_neighbors size c).get
        Direction.west)
      rw [grid_get_neighbors_get, get_neighbor_in_direction_west c size hr hc]
      by_cases h0 : 0 < c.col
      · rw [if_pos h0, if_pos h0, keep_same_region_ite]
      · rw [if_neg h0, if_neg h0]
        rfl
    · show _ = keep_same_region c ((grid_get_neighbors size c).get
        Direction.east)
      rw [grid_get_neighbors_get, get_neighbor_in_direction_east c size hr hc]
      by_cases h0 : (c.col : Int) < (size : Int) - 1
      · rw [if_pos h0, if_pos h0, keep_same_region_ite]
      · rw [if_neg h0, if_neg h0]
        rfl

/-- Witness for the amended C4 at a concrete input: size 6, coordinate
`(1,2)`. -/
theorem quadrant_filter_matches_grid_neighbors_witness :
    get_subregion_for_coord ⟨1, 2⟩ =
      2 * (if (⟨1, 2⟩ : Coord).row < 3 then 0 else 1) +
        (if (⟨1, 2⟩ : Coord).col < 3 then 0 else 1) ∧
    get_filtered_grid_neighbors ⟨1, 2⟩ 6 =
      nm_filter_region ⟨1, 2⟩ (grid_get_neighbors 6 ⟨1, 2⟩) :=
  quadrant_filter_matches_grid_neighbors 6 ⟨1, 2⟩ (by decide) (by decide)

/-! ## Link address symmetry and canonical layout (claim C2) -/

lemma node_id_div (cols : Nat) (a : Coord) (ha : a.col < cols) :
    node_id cols a / cols = a.row := by
  have hc : 0 < cols := Nat.lt_of_le_of_lt (Nat.zero_le _) ha
  unfold node_id
  rw [Nat.add_comm, Nat.add_mul_div_right _ _ hc, Nat.div_eq_of_lt ha,
    Nat.zero_add]

lemma node_id_inj (cols : Nat) (a b : Coord) (ha : a.col < cols)
    (hb : b.col < cols) (h : node_id cols a = node_id cols b) : a = b := by
  have hrow : a.row = b.row := by
    rw [← node_id_div cols a ha, ← node_id_div cols b hb, h]
  have hcol : a.col = b.col := by
    have h2 := h
    unfold node_id at h2
    rw [hrow] at h2
    omega
  cases a
  cases b
  simp_all

/-- Claim C2: `generate_link_ipv6` is symmetric in its two endpoints
(every field agrees under argument swap), deterministic (a pure
function, so repeated identical calls give identical results), and
after canonicalization the endpoint with the smaller linear id
`row*cols + col` is router 1 with address `network + 1` and the other
endpoint is router 2 with `network + 3`, each carrying a `/127`
interface prefix. -/
theorem link_address_symmetry_and_canonical_layout (cols : Nat)
    (a b : Coord) (ha : a.col < cols) (hb : b.col < cols) (hab : a ≠ b) :
    generate_link_ipv6 cols a b = generate_link_ipv6 cols b a ∧
    generate_link_ipv6 cols a b = generate_link_ipv6 cols a b ∧
    ∃ lo hi : Coord,
      ((lo = a ∧ hi = b) ∨ (lo = b ∧ hi = a)) ∧
      node_id cols lo < node_id cols hi ∧
      (generate_link_ipv6 cols a b).router1_name = router_name lo ∧
      (generate_link_ipv6 cols a b).router2_name = router_name hi ∧
      (generate_link_ipv6 cols a b).router1_addr =
        ((generate_link_ipv6 cols a b).network + 1, 127) ∧
      (generate_link_ipv6 cols a b).router2_addr =
        ((generate_link_ipv6 cols a b).network + 3, 127) := by
  have hid : node_id cols a ≠ node_id cols b := fun h =>
    hab (node_id_inj cols a b ha hb h)
  rcases Nat.lt_or_ge (node_id cols a) (node_id cols b) with hlt | hge
  · have h1 : ¬(node_id cols b < node_id cols a) := by omega
    refine ⟨?_, rfl, a, b, Or.inl ⟨rfl, rfl⟩, hlt, ?_, ?_, ?_, ?_⟩ <;>
      simp only [generate_link_ipv6, if_neg h1, if_pos hlt]
  · have hgt : node_id cols b < node_id cols a := by omega
    have h1 : ¬(node_id cols a < node_id cols b) := by omega
    refine ⟨?_, rfl, b, a, Or.inr ⟨rfl, rfl⟩, hgt, ?_, ?_, ?_, ?_⟩ <;>
      simp only [generate_link_ipv6, if_neg h1, if_pos hgt]

/-- Witness for C2 at a concrete input: endpoints `(0,1)` and `(0,0)`
with 6 columns. -/
theorem link_address_symmetry_and_canonical_layout_witness :
    generate_link_ipv6 6 ⟨0, 1⟩ ⟨0, 0⟩ = generate_link_ipv6 6 ⟨0, 0⟩ ⟨0, 1⟩ :=
  (link_address_symmetry_and_canonical_layout 6 ⟨0, 1⟩ ⟨0, 0⟩ (by decide)
    (by decide) (by decide)).1

/-! ## Link network uniqueness and the suffix-format collision (claim C1) -/

/-- Claim C1: on the small 6x6 grid the claim's uniqueness holds — the
6x6 torus link pass emits 72 links (every edge of the 6x6 torus) and
all 72 `/126` networks are pairwise distinct — but the claim is FALSE at
column count 100: the distinct unordered in-bounds pairs
`{(0,0),(0,1)}` (link id 2, one-segment suffix `0002`) and
`{(2,55),(2,56)}` (link id 131072, two-segment suffix `2:0000`) produce
the very same `/126` network `2001:db8:2000:2::/126`, because the
one-segment and two-segment address formats alias. -/
theorem link_network_uniqueness_small_and_collision_at_100 :
    ((torus_links 6).map LinkAddr.network).Nodup ∧
    (torus_links 6).length = 72 ∧
    (⟨0, 0⟩ : Coord) ≠ ⟨2, 55⟩ ∧ (⟨0, 1⟩ : Coord) ≠ ⟨2, 56⟩ ∧
    (generate_link_ipv6 100 ⟨0, 0⟩ ⟨0, 1⟩).network =
      (generate_link_ipv6 100 ⟨2, 55⟩ ⟨2, 56⟩).network := by
  refine ⟨by decide, by decide, by decide, by decide, by decide⟩

/-! ## The all-links generation pass lengths (claim C5) -/

lemma length_flatMap_const {α β : Type} (l : List α) (f : α → List β)
    (k : Nat) (h : ∀ a, (f a).length = k) :
    (l.flatMap f).length = l.length * k := by
  induction l with
  | nil => simp
  | cons x xs ih =>
    simp only [List.flatMap_cons, List.length_append, List.length_cons, h, ih]
    ring

lemma row_major_length (rows cols : Nat) :
    (row_major rows cols).length = rows * cols := by
  unfold row_major
  rw [length_flatMap_const _ _ cols (by simp), List.length_range]

lemma torus_links_length (n : Nat) : (torus_links n).length = 2 * n * n := by
  unfold torus_links
  rw [length_flatMap_const _ _ 2 (fun c => by rfl), row_major_length]
  ring

/-- Claim C5: for GRID and STRIP the all-links pass does not return a
link list at all — `generate_all_links` forwards four positional
arguments to the three-parameter `TopologyStrategy.get_neighbors_func`,
so Python raises `TypeError` before producing any link; only the TORUS
branch (its own loop, no neighbor factory) works, and it returns exactly
`2*n*n` links for every size `n ≥ 2`. -/
theorem all_links_pass_arity_bug_and_torus_count :
    (generate_all_links TopologyType.grid 2 =
      Except.error
        "TypeError: TopologyStrategy.get_neighbors_func takes from 2 to 3 positional arguments but 4 were given") ∧
    (generate_all_links TopologyType.strip 2 =
      Except.error
        "TypeError: TopologyStrategy.get_neighbors_func takes from 2 to 3 positional arguments but 4 were given") ∧
    ∀ n : Nat, 2 ≤ n →
      generate_all_links TopologyType.torus n = Except.ok (torus_links n) ∧
      (torus_links n).length = 2 * n * n := by
  refine ⟨rfl, rfl, fun n hn => ⟨?_, torus_links_length n⟩⟩
  unfold generate_all_links
  rw [if_pos ⟨rfl, by omega⟩]

/-- Witness for C5 at a concrete input: the torus pass at size 6. -/
theorem all_links_pass_arity_bug_and_torus_count_witness :
    generate_all_links TopologyType.torus 6 = Except.ok (torus_links 6) ∧
    (torus_links 6).length = 2 * 6 * 6 :=
  all_links_pass_arity_bug_and_torus_count.2.2 6 (by decide)

end TopoGen
